import Mathlib

/-!
# Verification of the FGP Gmail daemon dispatch core

Shallow embedding of `src/main.rs` (crate `fgp-gmail`): the method
dispatch, parameter validation, and backend CLI invocation logic of the
Gmail service.

The external world (the spawned `python3 gmail-cli.py` process) is modelled
as a function `Backend : List String → Option ProcOutput`: `none` means the
process failed to start (`Command::output()` returned an error), and
`ProcOutput` records the exit status, the JSON-parse result of standard
output (`none` when stdout does not parse as JSON, mirroring the
`serde_json::from_slice` boundary) and the standard error text.

Each service method returns, alongside its `Except` result, the list of
argument vectors passed to the backend, so that "the Backend Executor is
not invoked" is a statable property (the list is empty).
-/

/-- Storage classes of a `serde_json::Number`: a non-negative integer stored
as `u64`, a negative integer stored as `i64`, or a float stored as `f64`.
`as_u64` succeeds exactly on the first class. The float payload is kept
abstract as a rational tag since no arithmetic is ever performed on it. -/
inductive JsonNum where
  | posInt (n : Nat)
  | negInt (n : Int)
  | float (q : Rat)

/-- JSON values, mirroring `serde_json::Value`. Objects are association
lists of fields. -/
inductive Value where
  | null
  | bool (b : Bool)
  | num (n : JsonNum)
  | str (s : String)
  | arr (elems : List Value)
  | obj (fields : List (String × Value))

/-- Mirrors `Value::as_str`: `Some` exactly on JSON strings. -/
def Value.asStr : Value → Option String
  | .str s => some s
  | _ => none

/-- Mirrors `Value::as_u64`: `Some` exactly on numbers stored as `u64`. -/
def Value.asU64 : Value → Option Nat
  | .num (.posInt n) => some n
  | _ => none

/-- Mirrors `Value::get(key)`: field lookup, `None` on non-objects. -/
def Value.get (v : Value) (key : String) : Option Value :=
  match v with
  | .obj fields => (fields.find? (fun kv => kv.1 == key)).map (fun kv => kv.2)
  | _ => none

/-- The `HashMap<String, Value>` of request parameters, modelled as an
association list with first-match lookup (keys are unique in a `HashMap`). -/
abbrev Params := List (String × Value)

/-- Mirrors `HashMap::get`. -/
def Params.get? (ps : Params) (key : String) : Option Value :=
  (ps.find? (fun kv => kv.1 == key)).map (fun kv => kv.2)

/-- Outcome of a spawned external process that did start: exit status
(`success = status.success()`), the JSON-parse result of captured stdout,
and the captured stderr text. -/
structure ProcOutput where
  success : Bool
  stdout : Option Value
  stderr : String

/-- The external command boundary: given the argument vector passed after
`python3 <cli_path>`, either the process fails to start (`none`) or
produces a `ProcOutput`. -/
abbrev Backend := List String → Option ProcOutput

/-- Invocation log: the argument vectors of every backend call made. -/
abbrev Invocations := List (List String)

/-- The error cases of the daemon, one constructor per `bail!`/`context`
site in `src/main.rs`. -/
inductive GmailError where
  | unknownMethod (method : String)
  | missingRequiredParam (name : String)
  | backendProcessFailed
  | backendNonzeroExit (errMsg : String)
  | backendNonzeroStderr (stderr : String)
  | backendOutputUnparseable
  | cliNotFound (path : String)
  | python3NotFound
  | python3NotAvailable

/-- The human-readable message each error carries, exactly the strings
produced by the corresponding `bail!`/`context` calls in `src/main.rs`. -/
def GmailError.message : GmailError → String
  | .unknownMethod m => "Unknown method: " ++ m
  | .missingRequiredParam p => p ++ " parameter is required"
  | .backendProcessFailed => "Failed to run gmail-cli.py"
  | .backendNonzeroExit e => "Gmail API error: " ++ e
  | .backendNonzeroStderr s => "gmail-cli failed: " ++ s
  | .backendOutputUnparseable => "Failed to parse gmail-cli output"
  | .cliNotFound p => "Gmail CLI not found at: " ++ p ++ "\nEnsure gmail-cli.py is installed."
  | .python3NotFound => "Python3 not found"
  | .python3NotAvailable => "Python3 not available"

/-- The service struct: holds the resolved CLI script path. -/
structure GmailService where
  cli_path : String

/-- Mirrors `GmailService::new`: path discovery itself (`gmail_cli_path`)
is external filesystem probing, so the resolved path and its existence are
inputs; construction fails when the script exists at none of the probed
locations. -/
def GmailService.new (cliPath : String) (cliExists : Bool) : Except GmailError GmailService :=
  if cliExists then .ok ⟨cliPath⟩ else .error (.cliNotFound cliPath)

/-- Mirrors `GmailService::run_cli`: spawn the backend with `args`, and on
non-zero exit first try to extract a string `error` field from the parsed
stdout, falling back to raw stderr; on zero exit return the parsed stdout
or fail as unparseable. Records the single backend invocation. -/
def GmailService.run_cli (backend : Backend) (args : List String) :
    Except GmailError Value × Invocations :=
  let r : Except GmailError Value :=
    match backend args with
    | none => .error .backendProcessFailed
    | some out =>
      if !out.success then
        match out.stdout.bind (fun j => (j.get "error").bind Value.asStr) with
        | some e => .error (.backendNonzeroExit e)
        | none => .error (.backendNonzeroStderr out.stderr)
      else
        match out.stdout with
        | some v => .ok v
        | none => .error .backendOutputUnparseable
  (r, [args])

/-- Mirrors `GmailService::inbox`: optional `limit` (via `as_u64`),
defaulting to 10. -/
def GmailService.inbox (backend : Backend) (params : Params) :
    Except GmailError Value × Invocations :=
  let limit := ((params.get? "limit").bind Value.asU64).getD 10
  GmailService.run_cli backend ["inbox", "--limit", toString limit]

/-- Mirrors `GmailService::unread`: no parameters. -/
def GmailService.unread (backend : Backend) :
    Except GmailError Value × Invocations :=
  GmailService.run_cli backend ["unread"]

/-- Mirrors `GmailService::search`: required string `query`, optional
`limit` defaulting to 10. -/
def GmailService.search (backend : Backend) (params : Params) :
    Except GmailError Value × Invocations :=
  match (params.get? "query").bind Value.asStr with
  | none => (.error (.missingRequiredParam "query"), [])
  | some query =>
    let limit := ((params.get? "limit").bind Value.asU64).getD 10
    GmailService.run_cli backend ["search", query, "--limit", toString limit]

/-- Mirrors `GmailService::send`: required strings `to`, `subject`, `body`,
checked in that order. -/
def GmailService.send (backend : Backend) (params : Params) :
    Except GmailError Value × Invocations :=
  match (params.get? "to").bind Value.asStr with
  | none => (.error (.missingRequiredParam "to"), [])
  | some toAddr =>
    match (params.get? "subject").bind Value.asStr with
    | none => (.error (.missingRequiredParam "subject"), [])
    | some subject =>
      match (params.get? "body").bind Value.asStr with
      | none => (.error (.missingRequiredParam "body"), [])
      | some body =>
        GmailService.run_cli backend ["send", toAddr, subject, body]

/-- Mirrors `GmailService::thread`: required string `thread_id`. -/
def GmailService.thread (backend : Backend) (params : Params) :
    Except GmailError Value × Invocations :=
  match (params.get? "thread_id").bind Value.asStr with
  | none => (.error (.missingRequiredParam "thread_id"), [])
  | some threadId =>
    GmailService.run_cli backend ["thread", threadId]

/-- Mirrors `GmailService::dispatch`: route on the method name, matching
the five known names and failing with `unknown_method` otherwise. A match
on string literals is a sequence of equality tests. -/
def GmailService.dispatch (backend : Backend) (method : String) (params : Params) :
    Except GmailError Value × Invocations :=
  if method = "inbox" then GmailService.inbox backend params
  else if method = "unread" then GmailService.unread backend
  else if method = "search" then GmailService.search backend params
  else if method = "send" then GmailService.send backend params
  else if method = "thread" then GmailService.thread backend params
  else (.error (.unknownMethod method), [])

/-- Mirrors `fgp_daemon::service::ParamInfo`. -/
structure ParamInfo where
  name : String
  param_type : String
  required : Bool
  default : Option Value

/-- Mirrors `fgp_daemon::service::MethodInfo`. -/
structure MethodInfo where
  name : String
  description : String
  params : List ParamInfo

/-- Mirrors `GmailService::method_list`: built afresh on every call from
literals only; takes the service (as `&self` does) but does not read it. -/
def GmailService.method_list (_s : GmailService) : List MethodInfo :=
  [ { name := "inbox"
    , description := "List recent inbox emails"
    , params := [⟨"limit", "integer", false, some (.num (.posInt 10))⟩] }
  , { name := "unread"
    , description := "Get unread email count and summaries"
    , params := [] }
  , { name := "search"
    , description := "Search emails by query"
    , params := [⟨"query", "string", true, none⟩,
                 ⟨"limit", "integer", false, some (.num (.posInt 10))⟩] }
  , { name := "send"
    , description := "Send an email"
    , params := [⟨"to", "string", true, none⟩,
                 ⟨"subject", "string", true, none⟩,
                 ⟨"body", "string", true, none⟩] }
  , { name := "thread"
    , description := "Get email thread by ID"
    , params := [⟨"thread_id", "string", true, none⟩] } ]

/-- Mirrors `GmailService::on_start`: probe `python3 --version`; the probe
outcome is an input (`none` = the runtime could not be invoked at all).
Startup fails unless the probe ran and exited successfully. -/
def GmailService.on_start (_s : GmailService) (pythonProbe : Option ProcOutput) :
    Except GmailError Unit :=
  match pythonProbe with
  | none => .error .python3NotFound
  | some out =>
    if !out.success then .error .python3NotAvailable
    else .ok ()

/-! ## Warm Executor model

The spec describes two interchangeable backend execution strategies; the
source under `src/` implements only the cold (spawn-per-call) one, so the
Warm Executor below is modelled from the spec alone. -/

/-- Modelled from the spec: the Warm Executor and its Session lock are
missing from `src/` (only the cold executor is implemented there). A
request is waiting, then running (holding the single Session lock), then
finished. -/
inductive ReqState where
  | waiting
  | running
  | finished
deriving DecidableEq

/-- Modelled from the spec: the state of a Warm Executor serving `n`
concurrent requests — the phase of each request plus the current holder of
the exclusive Session lock. -/
structure WarmState (n : Nat) where
  reqs : Fin n → ReqState
  holder : Option (Fin n)

/-- Modelled from the spec: daemon start, all requests pending, lock free. -/
def WarmState.init (n : Nat) : WarmState n :=
  ⟨fun _ => .waiting, none⟩

/-- Modelled from the spec: a waiting request may acquire the free Session
lock and start its backend invocation; the running holder may finish and
release the lock. These are the only transitions — exclusivity is enforced
by an explicit mutual-exclusion primitive, as section 9 of the spec asks. -/
inductive WarmStep {n : Nat} : WarmState n → WarmState n → Prop where
  | acquire (s : WarmState n) (i : Fin n)
      (hw : s.reqs i = .waiting) (hfree : s.holder = none) :
      WarmStep s ⟨Function.update s.reqs i .running, some i⟩
  | release (s : WarmState n) (i : Fin n)
      (hr : s.reqs i = .running) (hh : s.holder = some i) :
      WarmStep s ⟨Function.update s.reqs i .finished, none⟩

/-- Reachability along Warm Executor transitions. -/
abbrev WarmReach {n : Nat} : WarmState n → WarmState n → Prop :=
  Relation.ReflTransGen WarmStep

/-- Lock invariant: a request is running exactly when it holds the lock. -/
def WarmInv {n : Nat} (s : WarmState n) : Prop :=
  ∀ i, s.reqs i = .running ↔ s.holder = some i

/-! ## Helper lemmas -/

theorem dispatch_at_inbox (backend : Backend) (params : Params) :
    GmailService.dispatch backend "inbox" params = GmailService.inbox backend params := rfl

theorem dispatch_at_search (backend : Backend) (params : Params) :
    GmailService.dispatch backend "search" params = GmailService.search backend params := rfl

theorem dispatch_at_send (backend : Backend) (params : Params) :
    GmailService.dispatch backend "send" params = GmailService.send backend params := rfl

theorem dispatch_at_thread (backend : Backend) (params : Params) :
    GmailService.dispatch backend "thread" params = GmailService.thread backend params := rfl

/-- A method name equal to none of the five entries of the match in
`dispatch` falls through to the catch-all arm. -/
theorem dispatch_not_known (backend : Backend) (method : String) (params : Params)
    (h : method ∉ ["inbox", "unread", "search", "send", "thread"]) :
    GmailService.dispatch backend method params
      = (.error (.unknownMethod method), []) := by
  simp only [List.mem_cons, List.not_mem_nil, or_false, not_or] at h
  obtain ⟨h1, h2, h3, h4, h5⟩ := h
  simp [GmailService.dispatch, h1, h2, h3, h4, h5]

theorem run_cli_fst_ne_unknown (backend : Backend) (args : List String) (m : String) :
    (GmailService.run_cli backend args).1 ≠ .error (.unknownMethod m) := by
  unfold GmailService.run_cli
  cases hb : backend args with
  | none => simp
  | some out =>
    cases hs : out.success with
    | false =>
      cases he : out.stdout.bind (fun j => (j.get "error").bind Value.asStr) with
      | none => simp [hs, he]
      | some e => simp [hs, he]
    | true =>
      cases ho : out.stdout with
      | none => simp [hs, ho]
      | some v => simp [hs, ho]

theorem search_fst_ne_unknown (backend : Backend) (params : Params) (m : String) :
    (GmailService.search backend params).1 ≠ .error (.unknownMethod m) := by
  unfold GmailService.search
  cases hq : (params.get? "query").bind Value.asStr with
  | none => simp
  | some q => exact run_cli_fst_ne_unknown backend _ m

theorem send_fst_ne_unknown (backend : Backend) (params : Params) (m : String) :
    (GmailService.send backend params).1 ≠ .error (.unknownMethod m) := by
  unfold GmailService.send
  cases hto : (params.get? "to").bind Value.asStr with
  | none => simp
  | some toAddr =>
    cases hsub : (params.get? "subject").bind Value.asStr with
    | none => simp
    | some subj =>
      cases hbody : (params.get? "body").bind Value.asStr with
      | none => simp
      | some body => exact run_cli_fst_ne_unknown backend _ m

theorem thread_fst_ne_unknown (backend : Backend) (params : Params) (m : String) :
    (GmailService.thread backend params).1 ≠ .error (.unknownMethod m) := by
  unfold GmailService.thread
  cases ht : (params.get? "thread_id").bind Value.asStr with
  | none => simp
  | some tid => exact run_cli_fst_ne_unknown backend _ m

theorem warmInv_init (n : Nat) : WarmInv (WarmState.init n) := by
  intro i
  simp [WarmState.init]

theorem warmInv_step {n : Nat} {s t : WarmState n} (hst : WarmStep s t)
    (hs : WarmInv s) : WarmInv t := by
  cases hst with
  | acquire i hw hfree =>
    intro j
    dsimp only
    by_cases hij : j = i
    · subst hij
      simp [Function.update_same]
    · rw [Function.update_noteq hij]
      constructor
      · intro hrun
        have hj := (hs j).mp hrun
        rw [hfree] at hj
        exact absurd hj (by simp)
      · intro hsome
        exact absurd (Option.some.inj hsome) (fun h => hij h.symm)
  | release i hr hh =>
    intro j
    dsimp only
    constructor
    · intro hrun
      by_cases hij : j = i
      · subst hij
        rw [Function.update_same] at hrun
        exact absurd hrun (by simp)
      · rw [Function.update_noteq hij] at hrun
        have hj := (hs j).mp hrun
        rw [hh] at hj
        exact absurd (Option.some.inj hj) (fun h => hij h.symm)
    · intro hsome
      exact absurd hsome (by simp)

theorem warmInv_reach {n : Nat} {s t : WarmState n} (h : WarmReach s t)
    (hs : WarmInv s) : WarmInv t := by
  induction h with
  | refl => exact hs
  | tail hab hbc ih => exact warmInv_step hbc ih

/-- A request that has finished stays finished along any further steps. -/
theorem warmReach_finished_stable {n : Nat} {s t : WarmState n} (h : WarmReach s t)
    (i : Fin n) (hi : s.reqs i = .finished) : t.reqs i = .finished := by
  induction h with
  | refl => exact hi
  | tail hab hbc ih =>
    cases hbc with
    | acquire j hw hfree =>
      dsimp only
      by_cases hij : i = j
      · subst hij
        rw [ih] at hw
        exact absurd hw (by simp)
      · rw [Function.update_noteq hij]
        exact ih
    | release j hr hh =>
      dsimp only
      by_cases hij : i = j
      · subst hij
        rw [Function.update_same]
      · rw [Function.update_noteq hij]
        exact ih

/-- A request that reached the finished phase passed through the running
phase at an intermediate state: it actually executed. -/
theorem warmReach_ran {n : Nat} {s t : WarmState n} (h : WarmReach s t) (i : Fin n)
    (hs : s.reqs i ≠ .finished) (ht : t.reqs i = .finished) :
    ∃ u, WarmReach s u ∧ WarmReach u t ∧ u.reqs i = .running := by
  revert ht
  induction h with
  | refl => exact fun ht => absurd ht hs
  | tail hab hbc ih =>
    intro ht
    cases hbc with
    | acquire j hw hfree =>
      dsimp only at ht
      by_cases hij : i = j
      · subst hij
        rw [Function.update_same] at ht
        exact absurd ht (by simp)
      · rw [Function.update_noteq hij] at ht
        obtain ⟨u, h1, h2, h3⟩ := ih ht
        exact ⟨u, h1, Relation.ReflTransGen.tail h2 (WarmStep.acquire _ j hw hfree), h3⟩
    | release j hr hh =>
      dsimp only at ht
      by_cases hij : i = j
      · subst hij
        exact ⟨_, hab, Relation.ReflTransGen.single (WarmStep.release _ i hr hh), hr⟩
      · rw [Function.update_noteq hij] at ht
        obtain ⟨u, h1, h2, h3⟩ := ih ht
        exact ⟨u, h1, Relation.ReflTransGen.tail h2 (WarmStep.release _ j hr hh), h3⟩

/-! ## Concrete backends and states used by the witnesses -/

/-- A backend whose process never starts. -/
def backendNoSpawn : Backend := fun _ => none

/-- A backend exiting non-zero with a structured error payload on stdout. -/
def backendBoom : Backend :=
  fun _ => some ⟨false, some (.obj [("error", .str "boom")]), "raw stderr"⟩

/-- A backend exiting zero with a parseable JSON object on stdout. -/
def backendOkTrue : Backend :=
  fun _ => some ⟨true, some (.obj [("ok", .bool true)]), ""⟩

/-- First transition of the two-request witness run: request 0 acquires. -/
def warmAfterAcquire : WarmState 2 :=
  ⟨Function.update (WarmState.init 2).reqs 0 .running, some 0⟩

/-- Second transition of the two-request witness run: request 0 releases. -/
def warmAfterRelease : WarmState 2 :=
  ⟨Function.update warmAfterAcquire.reqs 0 .finished, none⟩

/-! ## Claims -/

/-- C1: for every method name not in the method table matched by
`dispatch`, the call fails with the unknown_method error and the Backend
Executor is never invoked (the invocation log is empty). -/
theorem unknown_method_rejected_without_backend (backend : Backend) (method : String)
    (params : Params) (h : method ∉ ["inbox", "unread", "search", "send", "thread"]) :
    GmailService.dispatch backend method params
      = (.error (.unknownMethod method), []) :=
  dispatch_not_known backend method params h

theorem unknown_method_rejected_without_backend_witness :
    GmailService.dispatch backendNoSpawn "frobnicate" []
      = (.error (.unknownMethod "frobnicate"), []) :=
  unknown_method_rejected_without_backend backendNoSpawn "frobnicate" [] (by decide)

/-- C2: for every known method whose parameter mapping omits one of its
required parameters (query for search; to, subject, or body for send;
thread_id for thread), `dispatch` fails with a missing_required_param
error whose message names a required parameter treated as missing, and the
Backend Executor is not invoked (the invocation log is empty). -/
theorem missing_required_param_rejected (backend : Backend) (params : Params) :
    (params.get? "query" = none →
      GmailService.dispatch backend "search" params
        = (.error (.missingRequiredParam "query"), []) ∧
      (GmailError.missingRequiredParam "query").message = "query parameter is required") ∧
    ((params.get? "to" = none ∨ params.get? "subject" = none ∨ params.get? "body" = none) →
      ∃ p, p ∈ (["to", "subject", "body"] : List String) ∧
        GmailService.dispatch backend "send" params
          = (.error (.missingRequiredParam p), []) ∧
        (GmailError.missingRequiredParam p).message = p ++ " parameter is required") ∧
    (params.get? "thread_id" = none →
      GmailService.dispatch backend "thread" params
        = (.error (.missingRequiredParam "thread_id"), []) ∧
      (GmailError.missingRequiredParam "thread_id").message
        = "thread_id parameter is required") := by
  refine ⟨fun h => ⟨?_, rfl⟩, fun h => ?_, fun h => ⟨?_, rfl⟩⟩
  · rw [dispatch_at_search]
    simp [GmailService.search, h]
  · rcases hto : (params.get? "to").bind Value.asStr with _ | toAddr
    · exact ⟨"to", by simp, by rw [dispatch_at_send]; simp [GmailService.send, hto], rfl⟩
    · rcases hsub : (params.get? "subject").bind Value.asStr with _ | subj
      · exact ⟨"subject", by simp,
          by rw [dispatch_at_send]; simp [GmailService.send, hto, hsub], rfl⟩
      · have hbody : (params.get? "body").bind Value.asStr = none := by
          rcases h with h | h | h
          · rw [h] at hto; simp at hto
          · rw [h] at hsub; simp at hsub
          · rw [h]; rfl
        exact ⟨"body", by simp,
          by rw [dispatch_at_send]; simp [GmailService.send, hto, hsub, hbody], rfl⟩
  · rw [dispatch_at_thread]
    simp [GmailService.thread, h]

theorem missing_required_param_rejected_witness :
    GmailService.dispatch backendNoSpawn "search" []
      = (.error (.missingRequiredParam "query"), []) ∧
    (GmailError.missingRequiredParam "query").message = "query parameter is required" :=
  (missing_required_param_rejected backendNoSpawn []).1 rfl

/-- C3: for every backend invocation whose process exits non-zero, if
stdout parses as JSON with a string-valued error field the call fails with
backend_nonzero_exit carrying exactly that message, otherwise it fails
carrying the raw stderr text. -/
theorem nonzero_exit_error_reporting (backend : Backend) (args : List String)
    (out : ProcOutput) (hrun : backend args = some out) (hfail : out.success = false) :
    (∀ e, out.stdout.bind (fun j => (j.get "error").bind Value.asStr) = some e →
      GmailService.run_cli backend args = (.error (.backendNonzeroExit e), [args])) ∧
    (out.stdout.bind (fun j => (j.get "error").bind Value.asStr) = none →
      GmailService.run_cli backend args
        = (.error (.backendNonzeroStderr out.stderr), [args])) := by
  constructor
  · intro e he
    simp [GmailService.run_cli, hrun, hfail, he]
  · intro he
    simp [GmailService.run_cli, hrun, hfail, he]

theorem nonzero_exit_error_reporting_witness :
    GmailService.run_cli backendBoom ["unread"]
      = (.error (.backendNonzeroExit "boom"), [["unread"]]) :=
  (nonzero_exit_error_reporting backendBoom ["unread"]
      ⟨false, some (.obj [("error", .str "boom")]), "raw stderr"⟩ rfl rfl).1 "boom" rfl

/-- C4: for every backend invocation whose process exits zero, if stdout
parses as JSON the call returns exactly the parsed value, and if stdout
does not parse the call fails with backend_output_unparseable. -/
theorem zero_exit_result_parsing (backend : Backend) (args : List String)
    (out : ProcOutput) (hrun : backend args = some out) (hok : out.success = true) :
    (∀ v, out.stdout = some v → GmailService.run_cli backend args = (.ok v, [args])) ∧
    (out.stdout = none →
      GmailService.run_cli backend args = (.error .backendOutputUnparseable, [args])) := by
  constructor
  · intro v hv
    simp [GmailService.run_cli, hrun, hok, hv]
  · intro hv
    simp [GmailService.run_cli, hrun, hok, hv]

theorem zero_exit_result_parsing_witness :
    GmailService.run_cli backendOkTrue ["unread"]
      = (.ok (.obj [("ok", .bool true)]), [["unread"]]) :=
  (zero_exit_result_parsing backendOkTrue ["unread"]
      ⟨true, some (.obj [("ok", .bool true)]), ""⟩ rfl rfl).1 _ rfl

/-- C5: a search call with a string query and no limit invokes the backend
with the default limit 10 applied, the external command receiving exactly
the arguments search, the query, --limit, 10; likewise an inbox call with
empty parameters invokes the backend with limit 10. -/
theorem omitted_limit_defaults_to_ten (backend : Backend) (params : Params) (q : String)
    (hq : params.get? "query" = some (.str q)) (hl : params.get? "limit" = none) :
    GmailService.dispatch backend "search" params
      = GmailService.run_cli backend ["search", q, "--limit", "10"] ∧
    GmailService.dispatch backend "inbox" []
      = GmailService.run_cli backend ["inbox", "--limit", "10"] := by
  constructor
  · rw [dispatch_at_search]
    simp only [GmailService.search, hq, hl, Value.asStr, Option.bind_some, Option.bind_none,
      Option.getD_none]
    rfl
  · rfl

theorem omitted_limit_defaults_to_ten_witness :
    GmailService.dispatch backendNoSpawn "search" [("query", .str "invoices")]
      = GmailService.run_cli backendNoSpawn ["search", "invoices", "--limit", "10"] ∧
    GmailService.dispatch backendNoSpawn "inbox" []
      = GmailService.run_cli backendNoSpawn ["inbox", "--limit", "10"] :=
  omitted_limit_defaults_to_ten backendNoSpawn [("query", .str "invoices")] "invoices" rfl rfl

/-- C6: `method_list` is the same on every call (it reads nothing from the
service), and a method name is in its list exactly when `dispatch` does
not fail with unknown_method on it. -/
theorem method_list_matches_dispatch (s₁ s₂ : GmailService) (backend : Backend)
    (params : Params) (method : String) :
    GmailService.method_list s₁ = GmailService.method_list s₂ ∧
    ((GmailService.dispatch backend method params).1
        = .error (.unknownMethod method) ↔
      method ∉ (GmailService.method_list s₁).map MethodInfo.name) := by
  refine ⟨rfl, ?_⟩
  have hnames : (GmailService.method_list s₁).map MethodInfo.name
      = ["inbox", "unread", "search", "send", "thread"] := rfl
  rw [hnames]
  constructor
  · intro h hmem
    simp only [List.mem_cons, List.not_mem_nil, or_false] at hmem
    rcases hmem with hm | hm | hm | hm | hm
    · subst hm
      rw [dispatch_at_inbox] at h
      exact run_cli_fst_ne_unknown backend _ _ h
    · subst hm
      exact run_cli_fst_ne_unknown backend ["unread"] _ h
    · subst hm
      rw [dispatch_at_search] at h
      exact search_fst_ne_unknown backend params _ h
    · subst hm
      rw [dispatch_at_send] at h
      exact send_fst_ne_unknown backend params _ h
    · subst hm
      rw [dispatch_at_thread] at h
      exact thread_fst_ne_unknown backend params _ h
  · intro hmem
    rw [dispatch_not_known backend method params hmem]

/-- C7: in the Warm Executor model (modelled from the spec, which is the
only place the warm strategy exists), for any number of concurrent
requests at least 2, every state reachable from startup has at most one
request running against the shared Session (no two invocations overlap),
a finished request never runs again, and every finished request actually
held the Session at some intermediate state — it ran exactly once to
completion under mutual exclusion. -/
theorem warm_session_mutual_exclusion (n : Nat) (hn : 2 ≤ n) (s : WarmState n)
    (hreach : WarmReach (WarmState.init n) s) :
    (∀ i j : Fin n, s.reqs i = .running → s.reqs j = .running → i = j) ∧
    (∀ i : Fin n, s.reqs i = .finished → ∀ t, WarmReach s t → t.reqs i = .finished) ∧
    (∀ i : Fin n, s.reqs i = .finished →
      ∃ u, WarmReach (WarmState.init n) u ∧ WarmReach u s ∧ u.reqs i = .running) := by
  have hle : 0 < n := Nat.lt_of_lt_of_le Nat.zero_lt_two hn
  refine ⟨?_, ?_, ?_⟩
  · intro i j hi hj
    have hinv := warmInv_reach hreach (warmInv_init n)
    have h1 := (hinv i).mp hi
    have h2 := (hinv j).mp hj
    rw [h1] at h2
    exact Option.some.inj h2
  · intro i hi t ht
    exact warmReach_finished_stable ht i hi
  · intro i hi
    exact warmReach_ran hreach i (by simp [WarmState.init]) hi

theorem warm_session_mutual_exclusion_witness :
    ∃ u, WarmReach (WarmState.init 2) u ∧ WarmReach u warmAfterRelease ∧
      u.reqs 0 = ReqState.running :=
  (warm_session_mutual_exclusion 2 (by decide) warmAfterRelease
      (Relation.ReflTransGen.tail
        (Relation.ReflTransGen.single
          (WarmStep.acquire (WarmState.init 2) 0 rfl rfl))
        (WarmStep.release warmAfterAcquire 0 rfl rfl))).2.2 0 rfl

/-- C8: startup fails fast when the backend is unusable — construction
fails when the CLI script exists at none of the probed locations, and
on_start fails when the python3 runtime cannot be invoked or its version
probe exits non-zero, succeeding when the probe succeeds. -/
theorem startup_fail_fast (s : GmailService) (path : String) (out : ProcOutput) :
    GmailService.new path false = .error (.cliNotFound path) ∧
    GmailService.on_start s none = .error .python3NotFound ∧
    (out.success = false →
      GmailService.on_start s (some out) = .error .python3NotAvailable) ∧
    (out.success = true → GmailService.on_start s (some out) = .ok ()) := by
  refine ⟨rfl, rfl, fun h => ?_, fun h => ?_⟩
  · simp [GmailService.on_start, h]
  · simp [GmailService.on_start, h]

theorem startup_fail_fast_witness :
    GmailService.on_start ⟨"scripts/gmail-cli.py"⟩ (some ⟨false, none, ""⟩)
      = .error .python3NotAvailable ∧
    GmailService.on_start ⟨"scripts/gmail-cli.py"⟩ (some ⟨true, none, ""⟩) = .ok () :=
  ⟨(startup_fail_fast ⟨"scripts/gmail-cli.py"⟩ "p" ⟨false, none, ""⟩).2.2.1 rfl,
   (startup_fail_fast ⟨"scripts/gmail-cli.py"⟩ "p" ⟨true, none, ""⟩).2.2.2 rfl⟩

/-- C9: a required parameter present in the mapping with a non-string
value is treated exactly like an absent one: `dispatch` fails with the
missing_required_param error naming it and the backend is not invoked
(the invocation log is empty). For send, the parameters checked earlier
than the offending one must pass their own string extraction, since the
code checks to, then subject, then body. -/
theorem nonstring_param_treated_as_missing (backend : Backend) (params : Params)
    (v : Value) (hv : v.asStr = none) :
    (params.get? "query" = some v →
      GmailService.dispatch backend "search" params
        = (.error (.missingRequiredParam "query"), [])) ∧
    (params.get? "to" = some v →
      GmailService.dispatch backend "send" params
        = (.error (.missingRequiredParam "to"), [])) ∧
    (∀ toStr, (params.get? "to").bind Value.asStr = some toStr →
      params.get? "subject" = some v →
      GmailService.dispatch backend "send" params
        = (.error (.missingRequiredParam "subject"), [])) ∧
    (∀ toStr subjStr, (params.get? "to").bind Value.asStr = some toStr →
      (params.get? "subject").bind Value.asStr = some subjStr →
      params.get? "body" = some v →
      GmailService.dispatch backend "send" params
        = (.error (.missingRequiredParam "body"), [])) ∧
    (params.get? "thread_id" = some v →
      GmailService.dispatch backend "thread" params
        = (.error (.missingRequiredParam "thread_id"), [])) := by
  refine ⟨fun h => ?_, fun h => ?_, fun toStr hto h => ?_, fun toStr subjStr hto hsub h => ?_,
    fun h => ?_⟩
  · rw [dispatch_at_search]; simp [GmailService.search, h, hv]
  · rw [dispatch_at_send]; simp [GmailService.send, h, hv]
  · rw [dispatch_at_send]; simp [GmailService.send, hto, h, hv]
  · rw [dispatch_at_send]; simp [GmailService.send, hto, hsub, h, hv]
  · rw [dispatch_at_thread]; simp [GmailService.thread, h, hv]

theorem nonstring_param_treated_as_missing_witness :
    GmailService.dispatch backendNoSpawn "search" [("query", .num (.posInt 3))]
      = (.error (.missingRequiredParam "query"), []) :=
  (nonstring_param_treated_as_missing backendNoSpawn [("query", .num (.posInt 3))]
      (.num (.posInt 3)) rfl).1 rfl

/-- C10: a limit parameter present with a value `as_u64` rejects (a
string, a negative number, a float) is silently replaced by the default
10: the call does not fail with a type error, and the backend is invoked
with limit 10, for both inbox and search. -/
theorem bad_limit_silently_defaults (backend : Backend) (params : Params)
    (v : Value) (hv : v.asU64 = none) (hl : params.get? "limit" = some v) :
    GmailService.dispatch backend "inbox" params
      = GmailService.run_cli backend ["inbox", "--limit", "10"] ∧
    (∀ q, params.get? "query" = some (.str q) →
      GmailService.dispatch backend "search" params
        = GmailService.run_cli backend ["search", q, "--limit", "10"]) := by
  constructor
  · rw [dispatch_at_inbox]
    simp only [GmailService.inbox, hl, hv, Option.some_bind, Option.getD_none]
    rfl
  · intro q hq
    rw [dispatch_at_search]
    simp only [GmailService.search, hq, hl, hv, Value.asStr, Option.some_bind,
      Option.getD_none]
    rfl

theorem bad_limit_silently_defaults_witness :
    GmailService.dispatch backendNoSpawn "inbox" [("limit", .str "lots")]
      = GmailService.run_cli backendNoSpawn ["inbox", "--limit", "10"] ∧
    GmailService.dispatch backendNoSpawn "search"
        [("limit", .str "lots"), ("query", .str "x")]
      = GmailService.run_cli backendNoSpawn ["search", "x", "--limit", "10"] :=
  ⟨(bad_limit_silently_defaults backendNoSpawn [("limit", .str "lots")]
      (.str "lots") rfl rfl).1,
   (bad_limit_silently_defaults backendNoSpawn [("limit", .str "lots"), ("query", .str "x")]
      (.str "lots") rfl rfl).2 "x" rfl⟩
